import Mathlib

/-!
Verification of the code-analysis engine in `src/script.js` (NathAlexx/Port1).

The program is a browser utility; its core is three pure text passes over
the pasted input:
  * `generateExplanation`  (script.js lines 45-81)  — signature extraction,
  * `generateSuggestion`   (script.js lines 94-132) — heuristic advisories,
  * `generateDocumentation`(script.js lines 143-182) — documentation stubs,
plus the entry point `analyzeCode` (lines 15-34) with its single
empty-input validation gate.

The text passes are driven by ECMAScript regular expressions over the raw
input string.  We embed the input as `List Char` and each regular
expression as an executable matcher whose behavior at a position follows
the ECMAScript backtracking semantics of that concrete pattern.  For every
pattern we record (in comments) why the implemented deterministic or
bounded search coincides with the engine's backtracking search.
-/

namespace Port1

/-- ECMAScript `\s` (the WhiteSpace and LineTerminator production), the
same set used by `String.prototype.trim`: tab, LF, VT, FF, CR, space,
NBSP, U+1680, U+2000..U+200A, U+2028, U+2029, U+202F, U+205F, U+3000,
U+FEFF. -/
def isSpaceChar (c : Char) : Bool :=
  c = ' ' || c = '\t' || c = '\n' || c = '\x0b' || c = '\x0c' || c = '\r' ||
  c = '\u00A0' || c = '\u1680' || ('\u2000' ≤ c && c ≤ '\u200A') ||
  c = '\u2028' || c = '\u2029' || c = '\u202F' || c = '\u205F' ||
  c = '\u3000' || c = '\uFEFF'

/-- ECMAScript LineTerminator: LF, CR, U+2028, U+2029.  This is the set
excluded by `.` and the set after which a multiline `^` matches. -/
def isLineTermChar (c : Char) : Bool :=
  c = '\n' || c = '\r' || c = '\u2028' || c = '\u2029'

/-- Character class `[A-Za-z_]` (identifier start in all the regexes). -/
def isIdentStart (c : Char) : Bool :=
  ('A' ≤ c && c ≤ 'Z') || ('a' ≤ c && c ≤ 'z') || c = '_'

/-- Character class `[A-Za-z0-9_]` (identifier continuation). -/
def isIdentChar (c : Char) : Bool :=
  isIdentStart c || ('0' ≤ c && c ≤ '9')

/-- Length of the maximal prefix satisfying `p` (a greedy `p*` run). -/
def countWhile (p : Char → Bool) : List Char → Nat
  | [] => 0
  | c :: rest => if p c then countWhile p rest + 1 else 0

/-- `String.prototype.trim`: strip `isSpaceChar` from both ends. -/
def trimChars (l : List Char) : List Char :=
  ((l.dropWhile isSpaceChar).reverse.dropWhile isSpaceChar).reverse

/-- Pack a character list back into a string. -/
def strOf (l : List Char) : String := ⟨l⟩

/-- `code.split(/\r?\n/)`: split at each `\r\n` or lone `\n`; a `\r` not
followed by `\n` is ordinary content.  `splitLinesAux` carries the
reversed current piece. -/
def splitLinesAux : List Char → List Char → List (List Char)
  | [], acc => [acc.reverse]
  | '\r' :: '\n' :: rest, acc => acc.reverse :: splitLinesAux rest []
  | '\n' :: rest, acc => acc.reverse :: splitLinesAux rest []
  | c :: rest, acc => splitLinesAux rest (c :: acc)

/-- `code.split(/\r?\n/)`. -/
def splitLines (l : List Char) : List (List Char) := splitLinesAux l []

/-- `s.split(',')` (literal comma, JavaScript `String.prototype.split`). -/
def splitCommaAux : List Char → List Char → List (List Char)
  | [], acc => [acc.reverse]
  | ',' :: rest, acc => acc.reverse :: splitCommaAux rest []
  | c :: rest, acc => splitCommaAux rest (c :: acc)

/-- `s.split(',')`. -/
def splitComma (l : List Char) : List (List Char) := splitCommaAux l []

/-- The slice `code[a..b)` (used for captured substrings). -/
def listSub (code : List Char) (a b : Nat) : List Char :=
  (code.drop a).take (b - a)

/-- `"def"`, the dialect-A keyword. -/
def pyKeyword : List Char := ['d', 'e', 'f']

/-- `"function"`, the dialect-B keyword. -/
def jsKeyword : List Char := ['f', 'u', 'n', 'c', 't', 'i', 'o', 'n']

/-- Match of `kw\s+([A-Za-z_][A-Za-z0-9_]*)\s*\(([^)]*)\)` against the
suffix `s` anchored at its head; returns `((name, rawParams), length)`.

This is the regex of script.js lines 48 and 147 (`kw = def`) and lines
56 and 152 (`kw = function`).  The backtracking search is deterministic
here: `\s+`/`\s*` runs are followed by a character outside `\s`
(identifier start, `(`), the greedy identifier is followed by `\s*\(`
where a shortened identifier would leave an identifier character that is
neither whitespace nor `(`, and `[^)]*` cannot skip a `)`; so greedy
maximal munch is the unique candidate at each position. -/
def matchKeywordSigAt (kw : List Char) (s : List Char) :
    Option ((List Char × List Char) × Nat) :=
  if s.take kw.length ≠ kw then none else
  let s1 := s.drop kw.length
  let w1 := countWhile isSpaceChar s1
  if w1 = 0 then none else
  let s2 := s1.drop w1
  match s2 with
  | [] => none
  | c :: _ =>
    if ¬ isIdentStart c then none else
    let il := 1 + countWhile isIdentChar (s2.drop 1)
    let name := s2.take il
    let s3 := s2.drop il
    let w2 := countWhile isSpaceChar s3
    match s3.drop w2 with
    | '(' :: s5 =>
      let pl := countWhile (fun d => d ≠ ')') s5
      match s5.drop pl with
      | ')' :: _ =>
        some ((name, s5.take pl), kw.length + w1 + il + w2 + 1 + pl + 1)
      | _ => none
    | _ => none

/-- Match of `([A-Za-z_][A-Za-z0-9_]*)\s*=\s*\(([^)]*)\)\s*=>` against the
suffix `s` anchored at its head (script.js lines 63 and 156); returns
`((name, rawParams), length)`.  Deterministic for the same disjointness
reasons as `matchKeywordSigAt` (`=`, `(`, `>` are neither whitespace nor
identifier characters). -/
def matchArrowSigAt (s : List Char) : Option ((List Char × List Char) × Nat) :=
  match s with
  | [] => none
  | c :: _ =>
    if ¬ isIdentStart c then none else
    let il := 1 + countWhile isIdentChar (s.drop 1)
    let name := s.take il
    let s1 := s.drop il
    let w1 := countWhile isSpaceChar s1
    match s1.drop w1 with
    | '=' :: s2 =>
      let w2 := countWhile isSpaceChar s2
      match s2.drop w2 with
      | '(' :: s3 =>
        let pl := countWhile (fun d => d ≠ ')') s3
        match s3.drop pl with
        | ')' :: s4 =>
          let w3 := countWhile isSpaceChar s4
          match s4.drop w3 with
          | '=' :: '>' :: _ =>
            some ((name, s3.take pl), il + w1 + 1 + w2 + 1 + pl + 1 + w3 + 2)
          | _ => none
        | _ => none
      | _ => none
    | _ => none

/-- The `regex.exec` loop of a `/g` regex (and `String.prototype.matchAll`):
starting from position 0, find the first position `i` at which the
matcher succeeds, record `(i, payload, length)`, and resume at the end of
the match (ECMAScript advances at least one position on an empty match;
all matchers in this file produce matches of length ≥ 1).  `fuel` is an
upper bound on the number of steps; `code.length + 1` always suffices
because the position strictly increases.  No matcher in this file can
match the empty suffix, so the scan stops at `len`. -/
def scanPositions (f : Nat → Option (α × Nat)) (len : Nat) :
    Nat → Nat → List (Nat × α × Nat)
  | 0, _ => []
  | fuel + 1, i =>
    if len ≤ i then []
    else
      match f i with
      | some (a, m) => (i, a, m) :: scanPositions f len fuel (i + max m 1)
      | none => scanPositions f len fuel (i + 1)

/-- All matches of the dialect-A (`def`) signature regex, in textual
order (script.js lines 48-54 and 147-151: the two occurrences are
character-identical regex literals). -/
def pyMatches (code : List Char) : List (Nat × (List Char × List Char) × Nat) :=
  scanPositions (fun i => matchKeywordSigAt pyKeyword (code.drop i))
    code.length (code.length + 1) 0

/-- All matches of the dialect-B (`function`) signature regex, in textual
order (script.js lines 56-61 and 152-155). -/
def jsMatches (code : List Char) : List (Nat × (List Char × List Char) × Nat) :=
  scanPositions (fun i => matchKeywordSigAt jsKeyword (code.drop i))
    code.length (code.length + 1) 0

/-- All matches of the arrow-assignment regex, in textual order
(script.js lines 63-68 and 156-159). -/
def arrowMatches (code : List Char) : List (Nat × (List Char × List Char) × Nat) :=
  scanPositions (fun i => matchArrowSigAt (code.drop i))
    code.length (code.length + 1) 0

/-- One discovered signature as pushed by `generateExplanation`
(script.js lines 51-53, 58-60, 65-67). -/
structure FnSig where
  language : String
  name : String
  params : String
deriving DecidableEq, Repr

/-- `{ language, name, params: match[2].trim() }` for one raw match. -/
def sigOfMatch (lang : String) (m : Nat × (List Char × List Char) × Nat) :
    FnSig :=
  ⟨lang, strOf m.2.1.1, strOf (trimChars m.2.1.2)⟩

/-- The `functions` array built by `generateExplanation` (script.js lines
46-68): all dialect-A matches, then all dialect-B matches, then all
arrow matches — three sequential `while`-loops pushing into one array. -/
def explanationFunctions (code : List Char) : List FnSig :=
  (pyMatches code).map (sigOfMatch "Python") ++
    (jsMatches code).map (sigOfMatch "JavaScript") ++
    (arrowMatches code).map (sigOfMatch "JavaScript")

/-- `generateExplanation` (script.js lines 45-81).  The no-function branch
counts the lines (split on `/\r?\n/`) whose trimmed content is non-empty;
the template literal on lines 72-73 contains a literal newline. -/
def generateExplanation (code : List Char) : String :=
  let functions := explanationFunctions code
  if functions.length = 0 then
    let lines := (splitLines code).filter (fun l => trimChars l ≠ [])
    "O código possui " ++ toString lines.length ++
      " linha(s). Considere adicionar funções\npara organizar melhor a lógica e facilitar a manutenção."
  else
    let parts := functions.map (fun f =>
      f.language ++ ": função " ++ f.name ++ "(" ++
        (if f.params = "" then "sem parâmetros" else f.params) ++ ")")
    "Foram identificada(s) " ++ toString functions.length ++
      " função(ões): " ++ String.intercalate "; " parts ++ "."

/-! ## Heuristic Advisor (`generateSuggestion`, script.js lines 94-132) -/

/-- Does the text at absolute position `j` begin with `"""` (the
lookahead `(?!\"\"\")` of script.js line 97 tests this)? -/
def tripleQuoteAt (code : List Char) (j : Nat) : Bool :=
  (code.drop j).take 3 == ['"', '"', '"']

/-- One match attempt, at absolute position `i`, of the docstring regex
`def\s+[A-Za-z_][A-Za-z0-9_]*\s*\([^)]*\)\s*:\s*(?:\n\s*)+(?!\"\"\")`
(script.js line 97).

The part through `)` is the deterministic `matchKeywordSigAt` shape, and
`\s*:` is deterministic because whitespace never equals `:`.  For the
tail `\s*(?:\n\s*)+(?!\"\"\")` starting right after the colon, let the
maximal whitespace run there have length `r`.  Every consumed prefix is
some all-whitespace prefix of length `k ≤ r`, and a prefix of length `k`
is decomposable into `\s*` then one-or-more `\n\s*` groups exactly when
it contains at least one `\n` (put `\s*` up to the first `\n`, then one
group for the rest).  Hence the engine's backtracking search succeeds at
`i` exactly when some `k` with `1 ≤ k ≤ r` has a `\n` among the first
`k` whitespace characters and the position after those `k` characters is
not the start of `"""`. -/
def docstringMatchAt (code : List Char) (i : Nat) : Bool :=
  match matchKeywordSigAt pyKeyword (code.drop i) with
  | none => false
  | some (_, hlen) =>
    let s := (code.drop i).drop hlen
    let w := countWhile isSpaceChar s
    match s.drop w with
    | ':' :: _ =>
      let q := i + hlen + w + 1
      let r := countWhile isSpaceChar (code.drop q)
      (List.range r).any (fun k0 =>
        ((code.drop q).take (k0 + 1)).contains '\n' &&
          ! tripleQuoteAt code (q + k0 + 1))
    | _ => false

/-- `code.matchAll(docstring regex).length > 0` (script.js lines 97-98).
The `matchAll` list is non-empty exactly when the regex matches at some
position, so only match existence is embedded here. -/
def docstringFires (code : List Char) : Bool :=
  (List.range (code.length + 1)).any (docstringMatchAt code)

/-- Multiline `^` (flag `m`): position 0, or right after a
LineTerminator. -/
def lineStartAt (code : List Char) (i : Nat) : Bool :=
  if i = 0 then true
  else
    match code.drop (i - 1) with
    | c :: _ => isLineTermChar c
    | [] => false

/-- One match attempt, at absolute position `i`, of the undeclared-
assignment regex `^[ \t]*([A-Za-z_][A-Za-z0-9_]*)\s*=.+$` with flags
`gm` (script.js line 104); returns `(matchedText, length)`.

Deterministic: `[ \t]*` is followed by an identifier start (not a space
or tab), the greedy identifier is followed by `\s*=` where a shortened
identifier would leave an identifier character (neither whitespace nor
`=`), and `\s*` (which may cross line breaks!) is followed by `=`.
`.` excludes LineTerminator, so the greedy `.+` run ends at a position
where the multiline `$` holds automatically. -/
def matchUndeclAt (code : List Char) (i : Nat) : Option (List Char × Nat) :=
  if ! lineStartAt code i then none else
  let s := code.drop i
  let a := countWhile (fun c => c = ' ' || c = '\t') s
  match s.drop a with
  | [] => none
  | c :: _ =>
    if ¬ isIdentStart c then none else
    let il := 1 + countWhile isIdentChar ((s.drop a).drop 1)
    let s2 := (s.drop a).drop il
    let w := countWhile isSpaceChar s2
    match s2.drop w with
    | '=' :: s3 =>
      let d := countWhile (fun c => ! isLineTermChar c) s3
      if d = 0 then none
      else some (s.take (a + il + w + 1 + d), a + il + w + 1 + d)
    | _ => none

/-- All non-overlapping matches of the undeclared-assignment regex, as
produced by `code.matchAll` (script.js line 104). -/
def undeclMatches (code : List Char) : List (Nat × List Char × Nat) :=
  scanPositions (matchUndeclAt code) code.length (code.length + 1) 0

/-- Does `l` begin with keyword `kw` followed by one whitespace character
(the start of `kw\s+`)? -/
def declKwWsAt (l kw : List Char) : Bool :=
  l.take kw.length == kw &&
    (match l.drop kw.length with
     | d :: _ => isSpaceChar d
     | [] => false)

/-- `/(const|let|var)\s+/.test(line)` (script.js line 107): some position
in `line` starts one of the three keywords followed by at least one
whitespace character. -/
def hasDeclKeywordWs : List Char → Bool
  | [] => false
  | c :: rest =>
    (declKwWsAt (c :: rest) ['c', 'o', 'n', 's', 't'] ||
      declKwWsAt (c :: rest) ['l', 'e', 't'] ||
      declKwWsAt (c :: rest) ['v', 'a', 'r']) ||
    hasDeclKeywordWs rest

/-- The `.filter` of script.js lines 104-109: keep the matches whose
matched text has no declaration keyword followed by whitespace. -/
def undeclFlagged (code : List Char) : List (Nat × List Char × Nat) :=
  (undeclMatches code).filter (fun m => ! hasDeclKeywordWs m.2.1)

/-- `undeclaredJS.length > 0` (script.js line 110). -/
def undeclaredFires (code : List Char) : Bool :=
  decide (0 < (undeclFlagged code).length)

/-- The lookahead `(?=def |$)` of the long-function regex (script.js line
116, flags `g`, no `m`): the position starts `def ` (with a trailing
space) or is the very end of the input. -/
def longBodyOkAt (code : List Char) (j : Nat) : Bool :=
  (code.drop j).take 4 == ['d', 'e', 'f', ' '] || (code.drop j).isEmpty

/-- Smallest absolute position `e ≥ k` holding a `\n` whose successor
position satisfies `longBodyOkAt`; `rest = code.drop k`.  This is the
lazy expansion of `([\s\S]*?)\n(?=def |$)`: the lazy group grows one
character at a time, so the first `\n` with a good successor wins. -/
def findBodyEnd (code : List Char) : List Char → Nat → Option Nat
  | [], _ => none
  | c :: rest, k =>
    if c = '\n' && longBodyOkAt code (k + 1) then some k
    else findBodyEnd code rest (k + 1)

/-- Backtracking order of `\s*([\s\S]*?)\n(?=def |$)` after the colon at
absolute position `q`: the greedy `\s*` first takes its maximal run `w`
and only then the lazy group expands; on failure `\s*` gives back one
character at a time.  Returns the first successful `(w, e)` in that
order (`e` = absolute position of the consumed `\n`). -/
def tryWsSplit (code : List Char) (q : Nat) : Nat → Option (Nat × Nat)
  | 0 =>
    match findBodyEnd code (code.drop q) q with
    | some e => some (0, e)
    | none => none
  | w + 1 =>
    match findBodyEnd code (code.drop (q + w + 1)) (q + w + 1) with
    | some e => some (w + 1, e)
    | none => tryWsSplit code q w

/-- One match attempt, at absolute position `i`, of the long-function
regex `def\s+[A-Za-z_][A-Za-z0-9_]*\s*\([^)]*\):\s*([\s\S]*?)\n(?=def |$)`
(script.js line 116); note the `:` placed immediately after `\)`, with
no whitespace allowed between them.  Returns `(capturedBody, length)`. -/
def matchLongAt (code : List Char) (i : Nat) : Option (List Char × Nat) :=
  match matchKeywordSigAt pyKeyword (code.drop i) with
  | none => none
  | some (_, hlen) =>
    match (code.drop i).drop hlen with
    | ':' :: _ =>
      let q := i + hlen + 1
      let r := countWhile isSpaceChar (code.drop q)
      match tryWsSplit code q r with
      | some (w, e) => some (listSub code (q + w) e, e + 1 - i)
      | none => none
    | _ => none

/-- All non-overlapping matches of the long-function regex, as produced
by `code.matchAll` (script.js line 116). -/
def longMatches (code : List Char) : List (Nat × List Char × Nat) :=
  scanPositions (matchLongAt code) code.length (code.length + 1) 0

/-- The `.filter` of script.js lines 116-118: keep the matches whose
captured body splits (on `/\r?\n/`) into more than 20 lines. -/
def longFlagged (code : List Char) : List (Nat × List Char × Nat) :=
  (longMatches code).filter (fun m => 20 < (splitLines m.2.1).length)

/-- `longFuncs.length > 0` (script.js line 119). -/
def longFuncFires (code : List Char) : Bool :=
  decide (0 < (longFlagged code).length)

/-- Advisory pushed by the missing-docstring check (script.js line 100). -/
def pyDocstringAdvisory : String :=
  "Adicione docstrings às suas funções em Python para explicar o propósito e os parâmetros."

/-- Advisory pushed by the undeclared-assignment check (script.js line 112). -/
def declareAdvisory : String :=
  "No JavaScript, declare variáveis usando const ou let para evitar problemas de escopo."

/-- Advisory pushed by the long-function check (script.js line 121). -/
def splitAdvisory : String :=
  "Considere dividir funções muito longas em funções menores para melhorar a legibilidade."

/-- First generic fallback advisory (script.js line 127). -/
def namingAdvisory : String :=
  "Use nomes de variáveis e funções descritivos e adicione comentários quando necessário."

/-- Second generic fallback advisory (script.js line 129). -/
def errorHandlingAdvisory : String :=
  "Implemente tratamento de erros para tornar o código mais robusto."

/-- The `suggestions` array of `generateSuggestion` (script.js lines
95-130): the three checks push in fixed order, then the fallback fills
an empty array with the two generic advisories. -/
def suggestionsList (code : List Char) : List String :=
  let s1 : List String :=
    if docstringFires code then [pyDocstringAdvisory] else []
  let s2 : List String :=
    s1 ++ (if undeclaredFires code then [declareAdvisory] else [])
  let s3 : List String :=
    s2 ++ (if longFuncFires code then [splitAdvisory] else [])
  if s3.length = 0 then [namingAdvisory, errorHandlingAdvisory] else s3

/-- `generateSuggestion` (script.js lines 94-132): `suggestions.join(' ')`. -/
def generateSuggestion (code : List Char) : String :=
  String.intercalate " " (suggestionsList code)

/-! ## Documentation Synthesizer (`generateDocumentation`, lines 143-182) -/

/-- The `functions` array of `generateDocumentation` (script.js lines
145-159): the same three regex passes as `generateExplanation`
(character-identical regex literals), keeping `(name, params.trim())`. -/
def documentationFunctions (code : List Char) : List (String × String) :=
  (pyMatches code).map (fun m => (strOf m.2.1.1, strOf (trimChars m.2.1.2))) ++
    (jsMatches code).map (fun m => (strOf m.2.1.1, strOf (trimChars m.2.1.2))) ++
    (arrowMatches code).map (fun m => (strOf m.2.1.1, strOf (trimChars m.2.1.2)))

/-- The lines pushed for one function by the `forEach` of script.js lines
165-179.  `fn.params ? fn.params.split(',').map(trim) : []` treats the
empty parameter string as falsy. -/
def docStub (fn : String × String) : List String :=
  let params : List String :=
    if fn.2 ≠ "" then (splitComma fn.2.data).map (fun p => strOf (trimChars p))
    else []
  ["### Função `" ++ fn.1 ++ "()`",
   "**Descrição:** descreva aqui o que a função faz."] ++
  (if 0 < params.length ∧ ¬(params.length = 1 ∧ params.headD "" = "") then
    "**Parâmetros:**" ::
      params.map (fun p => "- `" ++ p ++ "`: descrição do parâmetro.")
  else
    ["**Parâmetros:** Esta função não recebe parâmetros."]) ++
  ["**Retorno:** descreva aqui o valor retornado pela função.", ""]

/-- The `docLines` array of `generateDocumentation` (script.js lines
144-180). -/
def docLinesOf (code : List Char) : List String :=
  let functions := documentationFunctions code
  if functions.length = 0 then
    ["# Documentação do Código",
     "Este trecho de código não contém definições de funções.",
     "Use seções e comentários para documentar a lógica."]
  else
    functions.flatMap docStub

/-- `generateDocumentation` (script.js lines 143-182): `docLines.join('\n')`. -/
def generateDocumentation (code : List Char) : String :=
  String.intercalate "\n" (docLinesOf code)

/-! ## Entry point (`analyzeCode`, script.js lines 15-34) -/

/-- The three derived artifacts and the verbatim echo that `analyzeCode`
writes to the page on success. -/
structure AnalysisOutput where
  originalCode : String
  explanation : String
  suggestion : String
  documentation : String
deriving DecidableEq, Repr

/-- `analyzeCode` (script.js lines 15-34).  The DOM is abstracted away:
the textarea content is the argument and the four written text nodes are
the result.  `none` models the `alert` path (`if (!code.trim()) return`),
which produces no artifacts. -/
def analyzeCode (code : String) : Option AnalysisOutput :=
  if trimChars code.data = [] then none
  else
    some ⟨code, generateExplanation code.data, generateSuggestion code.data,
      generateDocumentation code.data⟩

/-! ## Conditions modelled from the specification's wording

These definitions follow the spec's sentences, not the code; they exist
to compare the spec's described behavior with the embedded code where
the two disagree. -/

/-- Modelled from the spec: one scan step of "one or more
blank/whitespace-only lines ... NOT followed by a triple-quote token"
(spec §4.2 check 1).  `p` is the start of a candidate blank line; `n`
blank lines have been consumed so far; when the next line is not blank,
the condition holds when at least one blank line was seen and the text
at that point does not start with `"""`. -/
def claimedBlankLinesFrom (code : List Char) : Nat → Nat → Nat → Bool
  | 0, _, _ => false
  | fuel + 1, p, n =>
    let h := countWhile (fun c => isSpaceChar c && !(c = '\n')) (code.drop p)
    match code.drop (p + h) with
    | '\n' :: _ => claimedBlankLinesFrom code fuel (p + h + 1) (n + 1)
    | _ => decide (1 ≤ n) && ! tripleQuoteAt code p

/-- Modelled from the spec: "matches a dialect-A function header
immediately followed by one or more blank/whitespace-only lines and NOT
followed by a triple-quote token. If ≥1 match, append the
docstring-reminder advisory" (spec §4.2 check 1, the wording of claim
C4).  A header is the dialect-A keyword form with its colon; the rest of
the header's own line must be whitespace, then come the blank lines. -/
def claimedDocstringCond (code : List Char) : Bool :=
  (List.range (code.length + 1)).any (fun i =>
    match matchKeywordSigAt pyKeyword (code.drop i) with
    | none => false
    | some (_, hlen) =>
      let w := countWhile isSpaceChar ((code.drop i).drop hlen)
      match ((code.drop i).drop hlen).drop w with
      | ':' :: _ =>
        let q := i + hlen + w + 1
        let h0 := countWhile (fun c => isSpaceChar c && !(c = '\n')) (code.drop q)
        match code.drop (q + h0) with
        | '\n' :: _ =>
          claimedBlankLinesFrom code (code.length + 1) (q + h0 + 1) 0
        | _ => false
      | _ => false)

/-- Modelled from the spec: does `line` match "`identifier = ...` at
start-of-line (ignoring leading whitespace)" (spec §4.2 check 2, the
wording of claim C6)?  `line` is one line of the input, so it contains
no line break. -/
def claimedAssignLine (line : List Char) : Bool :=
  let a := countWhile isSpaceChar line
  match line.drop a with
  | [] => false
  | c :: _ =>
    isIdentStart c &&
      (let il := 1 + countWhile isIdentChar ((line.drop a).drop 1)
       let w := countWhile isSpaceChar ((line.drop a).drop il)
       match ((line.drop a).drop il).drop w with
       | '=' :: _ => true
       | _ => false)

/-- Does `sub` occur as a contiguous substring anywhere in `l`? -/
def containsSeq (l sub : List Char) : Bool :=
  (l.take sub.length == sub) ||
    (match l with
     | [] => false
     | _ :: rest => containsSeq rest sub)

/-- Modelled from the spec: the line "contains a declaration keyword
(three recognized keywords) anywhere in the line" (spec §4.2 check 2,
the wording of claim C6). -/
def claimedHasDeclKw (line : List Char) : Bool :=
  containsSeq line ['c', 'o', 'n', 's', 't'] ||
    containsSeq line ['l', 'e', 't'] || containsSeq line ['v', 'a', 'r']

/-- Modelled from the spec: the undeclared-assignment advisory condition
as claim C6 states it — some line matches `identifier = ...` at
start-of-line and contains none of the three declaration keywords. -/
def claimedUndeclaredCond (code : List Char) : Bool :=
  (splitLines code).any (fun line =>
    claimedAssignLine line && ! claimedHasDeclKw line)

/-- Modelled from the spec: walk the dialect-A matches in textual order;
each function's body is "all characters up to (but not including) the
next dialect-A header or end-of-text" (spec §4.2 check 3, the wording of
claim C7); the condition holds when some body has more than 20
newline-delimited lines. -/
def claimedLongCondAux (code : List Char) :
    List (Nat × (List Char × List Char) × Nat) → Bool
  | [] => false
  | [m] =>
    decide (20 < (splitLines (listSub code (m.1 + m.2.2) code.length)).length)
  | m :: m2 :: rest =>
    decide (20 < (splitLines (listSub code (m.1 + m.2.2) m2.1)).length) ||
      claimedLongCondAux code (m2 :: rest)

/-- Modelled from the spec: the long-function advisory condition as
claim C7 states it. -/
def claimedLongCond (code : List Char) : Bool :=
  claimedLongCondAux code (pyMatches code)

/-! ## General lemmas about the scan driver -/

/-- Every match reported by `scanPositions` starting from position `i`
starts at or after `i`. -/
theorem scanPositions_le {α : Type} (f : Nat → Option (α × Nat)) (len : Nat) :
    ∀ (fuel i : Nat), ∀ x ∈ scanPositions f len fuel i, i ≤ x.1 := by
  intro fuel
  induction fuel with
  | zero => intro i x hx; simp [scanPositions] at hx
  | succ n ih =>
    intro i x hx
    rw [scanPositions] at hx
    by_cases hli : len ≤ i
    · simp [hli] at hx
    · rw [if_neg hli] at hx
      cases hf : f i with
      | none =>
        rw [hf] at hx
        exact le_trans (Nat.le_succ i) (ih (i + 1) x hx)
      | some am =>
        rw [hf] at hx
        rcases List.mem_cons.mp hx with h1 | h2
        · rw [h1]
        · exact le_trans (Nat.le_add_right i (max am.2 1)) (ih _ x h2)

/-- The matches reported by `scanPositions` have strictly increasing
start positions: each pass lists its matches in left-to-right textual
order. -/
theorem scanPositions_chain {α : Type} (f : Nat → Option (α × Nat)) (len : Nat) :
    ∀ (fuel i : Nat),
      List.Chain' (fun a b => a.1 < b.1) (scanPositions f len fuel i) := by
  intro fuel
  induction fuel with
  | zero => intro i; simp [scanPositions]
  | succ n ih =>
    intro i
    rw [scanPositions]
    by_cases hli : len ≤ i
    · simp [hli]
    · rw [if_neg hli]
      cases hf : f i with
      | none => exact ih (i + 1)
      | some am =>
        refine List.chain'_cons'.mpr ⟨?_, ih (i + max am.2 1)⟩
        intro y hy
        have hmem : y ∈ scanPositions f len n (i + max am.2 1) :=
          List.mem_of_mem_head? hy
        have h1 : i + max am.2 1 ≤ y.1 := scanPositions_le f len n _ y hmem
        have h2 : i < i + max am.2 1 :=
          Nat.lt_add_of_pos_right (lt_of_lt_of_le Nat.zero_lt_one (Nat.le_max_right am.2 1))
        exact lt_of_lt_of_le h2 h1

/-! ## Claim theorems -/

/-- Claim C1: for every input whose trimmed form has zero length the
entry point signals the single EmptyInput validation failure (the
`alert` path, modelled as `none`) and produces none of the three output
artifacts; for every other input it produces all three artifacts plus
the verbatim echo of the input. -/
theorem entry_empty_input_gate (code : String) :
    (analyzeCode code = none ↔ trimChars code.data = []) ∧
    (trimChars code.data ≠ [] →
      analyzeCode code =
        some ⟨code, generateExplanation code.data, generateSuggestion code.data,
          generateDocumentation code.data⟩) := by
  constructor
  · constructor
    · intro h
      by_contra hne
      unfold analyzeCode at h
      rw [if_neg hne] at h
      exact Option.noConfusion h
    · intro h
      unfold analyzeCode
      rw [if_pos h]
  · intro h
    unfold analyzeCode
    rw [if_neg h]

/-- Witness for C1 at the whitespace-only input `"   "` and the
non-empty input `" x "`. -/
theorem entry_empty_input_gate_witness :
    analyzeCode "   " = none ∧
    analyzeCode " x " =
      some ⟨" x ", generateExplanation " x ".data, generateSuggestion " x ".data,
        generateDocumentation " x ".data⟩ :=
  ⟨(entry_empty_input_gate "   ").1.mpr (by decide),
   (entry_empty_input_gate " x ").2 (by decide)⟩

/-- Claim C2: the Signature Extractor's result is the concatenation of
the three passes — all dialect-A matches, then all dialect-B matches,
then all lambda-assignment matches — and within each pass the matches
come in left-to-right textual order (strictly increasing start
positions); passes are never merged or sorted by position. -/
theorem extractor_pass_order (code : List Char) :
    explanationFunctions code =
      (pyMatches code).map (sigOfMatch "Python") ++
        (jsMatches code).map (sigOfMatch "JavaScript") ++
        (arrowMatches code).map (sigOfMatch "JavaScript") ∧
    List.Chain' (fun a b => a.1 < b.1) (pyMatches code) ∧
    List.Chain' (fun a b => a.1 < b.1) (jsMatches code) ∧
    List.Chain' (fun a b => a.1 < b.1) (arrowMatches code) :=
  ⟨rfl, scanPositions_chain _ _ _ 0, scanPositions_chain _ _ _ 0,
    scanPositions_chain _ _ _ 0⟩

/-- Claim C3: the extraction performed by the Documentation Synthesizer
(script.js lines 145-159) yields exactly the same ordered sequence of
(name, parameterText) pairs as the Signature Extractor of the
explanation generator (script.js lines 46-68). -/
theorem doc_extraction_matches_explanation (code : List Char) :
    documentationFunctions code =
      (explanationFunctions code).map (fun f => (f.name, f.params)) := by
  unfold documentationFunctions explanationFunctions
  simp only [List.map_append, List.map_map]
  rfl

/-- Counterexample to claim C4 at the input `"def f():\n\n\"\"\""`: its
only dialect-A header is followed by one blank line and then a
triple-quote token, so the claim (and spec §4.2 check 1) predicts the
docstring advisory is absent; the code's regex nevertheless matches
(backtracking may stop inside the whitespace run, where the negative
lookahead trivially succeeds), so the advisory is present. -/
theorem docstring_claim_counterexample :
    claimedDocstringCond "def f():\n\n\"\"\"".data = false ∧
    pyDocstringAdvisory ∈ suggestionsList "def f():\n\n\"\"\"".data := by
  constructor
  · decide
  · decide

/-- Claim C4 as amended: the missing-docstring advisory is appended if
and only if the docstring regex matches at some position, i.e. some
dialect-A header with its colon is followed by an all-whitespace
stretch that contains a newline and admits a backtracking stop not
immediately followed by `"""`; in particular a header followed by a
blank line triggers the advisory even when a triple-quote comes next. -/
theorem docstring_advisory_iff_regex (code : List Char) :
    pyDocstringAdvisory ∈ suggestionsList code ↔ docstringFires code = true := by
  cases hd : docstringFires code <;> cases hu : undeclaredFires code <;>
    cases hl : longFuncFires code <;>
    simp only [suggestionsList, hd, hu, hl] <;> decide

/-- Counterexample to claim C5 at the input `"x = 5"`: it contains no
recognizable function-definition shape, yet the Heuristic Advisor
yields only the declaration-reminder advisory (the undeclared-assignment
check fires), not the two generic advisories. -/
theorem fallback_claim_counterexample :
    explanationFunctions "x = 5".data = [] ∧
    suggestionsList "x = 5".data = [declareAdvisory] ∧
    suggestionsList "x = 5".data ≠ [namingAdvisory, errorHandlingAdvisory] := by
  refine ⟨by decide, by decide, by decide⟩

/-- Claim C5 as amended: for every input on which none of the three
heuristic checks fires, the Heuristic Advisor yields exactly the two
generic advisories — the descriptive-naming reminder then the
error-handling reminder — in that fixed order and nothing else.  (An
input with no function-definition shape can still fire the
undeclared-assignment check and then receives that advisory instead.) -/
theorem fallback_two_generic_advisories (code : List Char)
    (hd : docstringFires code = false) (hu : undeclaredFires code = false)
    (hl : longFuncFires code = false) :
    suggestionsList code = [namingAdvisory, errorHandlingAdvisory] := by
  simp only [suggestionsList, hd, hu, hl]
  decide

/-- Witness for the amended C5 at the input `"pass"`. -/
theorem fallback_two_generic_advisories_witness :
    suggestionsList "pass".data = [namingAdvisory, errorHandlingAdvisory] :=
  fallback_two_generic_advisories "pass".data (by decide) (by decide) (by decide)

/-- Counterexample to claim C6 at the input `"x\n= 5"`: neither of its
two lines matches `identifier = ...` at start-of-line, so the claim
predicts no flag; but the regex's `\s*` before `=` crosses the line
break, the match `"x\n= 5"` contains no declaration keyword, and the
declaration-reminder advisory is appended. -/
theorem undeclared_claim_counterexample :
    claimedUndeclaredCond "x\n= 5".data = false ∧
    declareAdvisory ∈ suggestionsList "x\n= 5".data := by
  constructor
  · decide
  · decide

/-- Claim C6 as amended: the undeclared-assignment check flags a match
exactly when, at a line start after optional spaces/tabs, an identifier
is followed by optional whitespace (which may span line breaks), `=`,
and at least one further character on that line, and the matched text
does not contain a declaration keyword immediately followed by
whitespace; the declaration-reminder advisory is appended if and only
if at least one such non-exempt match exists. -/
theorem undeclared_advisory_iff_matches (code : List Char) :
    declareAdvisory ∈ suggestionsList code ↔ undeclaredFires code = true := by
  cases hd : docstringFires code <;> cases hu : undeclaredFires code <;>
    cases hl : longFuncFires code <;>
    simp only [suggestionsList, hd, hu, hl] <;> decide

/-- Counterexample to claim C7 at an input holding one dialect-A
function whose body is 21 non-blank lines but which does not end with a
newline: the claim's body (all characters up to end-of-text) exceeds 20
lines, so the claim predicts the decomposition advisory; the code's
regex requires a final `\n` before the `(?=def |$)` lookahead, captures
nothing here, and the advisory is absent. -/
theorem long_function_claim_counterexample :
    claimedLongCond
      "def f():\nx\nx\nx\nx\nx\nx\nx\nx\nx\nx\nx\nx\nx\nx\nx\nx\nx\nx\nx\nx\nx".data
        = true ∧
    splitAdvisory ∉ suggestionsList
      "def f():\nx\nx\nx\nx\nx\nx\nx\nx\nx\nx\nx\nx\nx\nx\nx\nx\nx\nx\nx\nx\nx".data := by
  constructor
  · decide
  · decide

/-- Claim C7 as amended: the long-function check captures a body only
for a dialect-A header whose colon follows the parameter list with no
intervening whitespace, and the body must end at a newline directly
followed by `def ` or end-of-text (greedy whitespace after the colon is
consumed first, and a final function not ending in such a newline
captures no body); the decomposition advisory is appended if and only
if some captured body splits into more than 20 newline-delimited
lines. -/
theorem long_function_advisory_iff_matches (code : List Char) :
    splitAdvisory ∈ suggestionsList code ↔ longFuncFires code = true := by
  cases hd : docstringFires code <;> cases hu : undeclaredFires code <;>
    cases hl : longFuncFires code <;>
    simp only [suggestionsList, hd, hu, hl] <;> decide

/-- Claim C8: for the input `"def foo(x):\n    pass"` the explanation
reports exactly one function, of dialect A (Python), named `foo` with
parameter text `x`, and the documentation emits a header for `foo()`
with exactly one parameter bullet for `x`. -/
theorem example_def_foo_artifacts :
    explanationFunctions "def foo(x):\n    pass".data =
      [⟨"Python", "foo", "x"⟩] ∧
    generateExplanation "def foo(x):\n    pass".data =
      "Foram identificada(s) 1 função(ões): Python: função foo(x)." ∧
    docLinesOf "def foo(x):\n    pass".data =
      ["### Função `foo()`",
       "**Descrição:** descreva aqui o que a função faz.",
       "**Parâmetros:**",
       "- `x`: descrição do parâmetro.",
       "**Retorno:** descreva aqui o valor retornado pela função.", ""] := by
  refine ⟨by decide, by decide, by decide⟩

/-- Claim C9: for every discovered signature whose parameter text is
`"a, b"`, the documentation stub contains exactly two parameter
bullets, one for `a` and one for `b`, in that order. -/
theorem doc_stub_two_param_bullets (name : String) :
    docStub (name, "a, b") =
      ["### Função `" ++ name ++ "()`",
       "**Descrição:** descreva aqui o que a função faz.",
       "**Parâmetros:**",
       "- `a`: descrição do parâmetro.",
       "- `b`: descrição do parâmetro.",
       "**Retorno:** descreva aqui o valor retornado pela função.", ""] := rfl

/-- Claim C10: when the Signature Extractor finds zero signatures, the
explanation is the generic message reporting N line(s), where N counts
the lines of the input (split on `\r?\n`) whose trimmed content is
non-empty. -/
theorem fallback_explanation_counts_lines (code : List Char)
    (h : explanationFunctions code = []) :
    generateExplanation code =
      "O código possui " ++
        toString (((splitLines code).filter (fun l => trimChars l ≠ [])).length) ++
        " linha(s). Considere adicionar funções\npara organizar melhor a lógica e facilitar a manutenção." := by
  unfold generateExplanation
  rw [h]
  simp

/-- Witness for C10 at the input `"a\n\nb"` (two non-blank lines). -/
theorem fallback_explanation_counts_lines_witness :
    explanationFunctions "a\n\nb".data = [] ∧
    generateExplanation "a\n\nb".data =
      "O código possui " ++
        toString (((splitLines "a\n\nb".data).filter (fun l => trimChars l ≠ [])).length) ++
        " linha(s). Considere adicionar funções\npara organizar melhor a lógica e facilitar a manutenção." :=
  ⟨by decide, fallback_explanation_counts_lines "a\n\nb".data (by decide)⟩

end Port1
